import Mathlib

/-!
Shallow embedding of the saygift-light-bridge repository
(`light_controller.py`, `mqtt_client.py`): the Device Adapter's
`get_state` / `set_state` response handling and scale conversions, the
Bridge Coordinator's command handling and publish-state critical section.

Python's `round(x)` on a float rounds the exact binary64 value half to
even.  The source computes `luminance * 2.55` and `brightness / 2.55` in
binary64, where the literal `2.55` is the double closest to 51/20, namely
5742089524897382 / 2^51.  The definitions below model those computations
exactly at the integer level (significand rounding at 53 bits, then
half-to-even rounding of the resulting dyadic rational), so that e.g.
`round(50 * 2.55) = 127` (the float product is 127.49999999999999),
matching CPython bit for bit on the relevant ranges.
-/

/-- Exceptions relevant to the Python code's try/except structure.
`requestException` stands for `requests.exceptions.RequestException`
(network errors, timeouts, non-2xx via `raise_for_status`, and JSON body
decode failures, which subclass it). -/
inductive PyExc
  | requestException
  | valueError
  | keyError
  | typeError
  | attributeError
deriving DecidableEq, Repr

/-- JSON-like values, the possible shapes of a parsed cloud response body
and of inbound MQTT command payloads. -/
inductive JVal
  | jnull
  | jbool (b : Bool)
  | jint (n : Int)
  | jstr (s : String)
  | jarr (elems : List JVal)
  | jobj (fields : List (String × JVal))

/-- Python truthiness of a JSON value (`if response_json.get("flag")`). -/
def pyTruthy : JVal → Bool
  | .jnull => false
  | .jbool b => b
  | .jint n => n != 0
  | .jstr s => s != ""
  | .jarr elems => !elems.isEmpty
  | .jobj fields => !fields.isEmpty

/-- Field lookup in a JSON object's field list (Python `dict` access). -/
def lookupField (fields : List (String × JVal)) (key : String) : Option JVal :=
  match fields with
  | [] => none
  | (k, v) :: rest => if k = key then some v else lookupField rest key

/-- Python `key in dict` membership test. -/
def hasField (fields : List (String × JVal)) (key : String) : Bool :=
  (lookupField fields key).isSome

/-- Python `int(x)` applied to a JSON value: ints pass through, bools map
to 0/1, numeric strings parse (`ValueError` otherwise), and `None`, lists
and dicts raise `TypeError`. -/
def pyInt : JVal → Except PyExc Int
  | .jint n => .ok n
  | .jbool b => .ok (if b then 1 else 0)
  | .jstr s =>
    match s.toInt? with
    | some n => .ok n
    | none => .error .valueError
  | .jnull => .error .typeError
  | .jarr _ => .error .typeError
  | .jobj _ => .error .typeError

/-- Python `str.upper` on a single character, restricted to ASCII (the
only case the command payloads exercise): lowercase letters map to their
uppercase forms, everything else is unchanged. -/
def pyUpperChar (c : Char) : Char :=
  if 'a' ≤ c ∧ c ≤ 'z' then Char.ofNat (c.toNat - 32) else c

/-- Python `str.upper` on an ASCII string, character by character. -/
def pyUpper (s : String) : String :=
  String.mk (s.data.map pyUpperChar)

/-- Integer division of `a` by `b` rounding half to even, the rounding
used both by binary64 arithmetic and by Python's `round`. -/
def rdivHalfEven (a b : Nat) : Nat :=
  let q := a / b
  let r := a % b
  if b < 2 * r then q + 1
  else if 2 * r < b then q
  else if q % 2 = 0 then q else q + 1

/-- Fuel-driven floor of the base-2 logarithm (`bitLenAux fuel n` is
`floor (log2 n)` whenever `n ≤ fuel` and `1 ≤ n`); structural recursion
on the fuel keeps it kernel-reducible. -/
def bitLenAux : Nat → Nat → Nat
  | 0, _ => 0
  | fuel + 1, n => if n ≤ 1 then 0 else bitLenAux fuel (n / 2) + 1

/-- Floor of the base-2 logarithm of `n` (0 for `n ≤ 1`). -/
def floorLog2 (n : Nat) : Nat := bitLenAux n n

/-- The integer significand of the binary64 double nearest 2.55: the
stored value of the Python literal `2.55` is `sig255 / 2^51`. -/
def sig255 : Nat := 5742089524897382

/-- Round `n` to 53 significant bits, ties to even, returning the rounded
integer (the value a binary64 multiplication would keep, prior to the
common scale factor). -/
def fl53 (n : Nat) : Nat :=
  let k := floorLog2 n
  if k ≤ 52 then n
  else rdivHalfEven n (2 ^ (k - 52)) * 2 ^ (k - 52)

/-- Python `round(l * 2.55)` for a nonnegative integer `l`, computed as
CPython does: the exact product `l * sig255` is rounded to a 53-bit
significand (the binary64 multiply), and the resulting dyadic rational
with denominator `2^51` is rounded half to even. -/
def pyRoundMul255 (l : Nat) : Nat :=
  rdivHalfEven (fl53 (l * sig255)) (2 ^ 51)

/-- Python `round(b / 2.55)` for a nonnegative integer `b`: the binary64
quotient `b / (sig255 / 2^51)` is rounded to a 53-bit significand placed
at the correct exponent, then rounded half to even to an integer. -/
def pyRoundDiv255Nat (b : Nat) : Nat :=
  let kShifted := floorLog2 (b * 2 ^ 53 / sig255)
  let j := 54 - kShifted
  rdivHalfEven (rdivHalfEven (b * 2 ^ (51 + j)) sig255) (2 ^ j)

/-- Python `round(b / 2.55)` for an arbitrary integer `b`; binary64
division and half-to-even rounding are symmetric under negation. -/
def pyRoundDiv255 (b : Int) : Int :=
  if 0 ≤ b then (pyRoundDiv255Nat b.toNat : Int)
  else -(pyRoundDiv255Nat (-b).toNat : Int)

/-- The dictionary `get_state` returns on success:
`{"state": "ON"/"OFF", "brightness": 0-255}`. -/
structure LightState where
  state : String
  brightness : Int
deriving DecidableEq, Repr

/-- Conversion `get_state` performs on a polled luminance value:
`is_on = luminance > 0`, `brightness_255 = round(luminance * 2.55) if
is_on else 0`, `state = "ON" if is_on else "OFF"`. -/
def luminanceToState (luminance : Int) : LightState :=
  let isOn := 0 < luminance
  { state := if isOn then "ON" else "OFF"
    brightness := if isOn then (pyRoundMul255 luminance.toNat : Int) else 0 }

/-- Outcome of a cloud HTTP request as seen inside the adapter's `try`
block: either an exception from the `requests` library
(network/timeout/non-2xx from `raise_for_status`/body not decodable as
JSON, all `RequestException`s) or a parsed JSON body. -/
inductive HttpResult
  | transportError
  | ok (body : JVal)

/-- Body of `get_state`'s `try` block after a response arrived: the
`response_json.get("flag")` truthiness test together with
`"data" in response_json`; on the success path `device_data.get` and
`int(...)` can raise (a non-dict body or non-dict `data` raises
`AttributeError`, a null/list/dict luminance raises `TypeError`), which
this function surfaces as `.error`. -/
def get_state_try (body : JVal) : Except PyExc (Option LightState) :=
  match body with
  | .jobj fields =>
    if pyTruthy ((lookupField fields "flag").getD .jnull) ∧ hasField fields "data" then
      match (lookupField fields "data").getD .jnull with
      | .jobj dataFields =>
        match pyInt ((lookupField dataFields "luminance").getD (.jint 0)) with
        | .ok luminance => .ok (some (luminanceToState luminance))
        | .error e => .error e
      | _ => .error .attributeError
    else .ok none
  | _ => .error .attributeError

/-- `LightController.get_state`: the `try` body guarded by the two
`except` clauses — `requests.exceptions.RequestException` and
`(ValueError, KeyError)` both return `None`; any other exception
propagates to the caller. -/
def get_state (resp : HttpResult) : Except PyExc (Option LightState) :=
  match resp with
  | .transportError => .ok none
  | .ok body =>
    match get_state_try body with
    | .error .valueError => .ok none
    | .error .keyError => .ok none
    | r => r

/-- The form payload `set_state` posts to the control endpoint:
`{serialNumber, id, lightType, luminance?}` with `luminance` optional. -/
structure ControlPayload where
  serialNumber : String
  deviceId : String
  lightType : Int
  luminance : Option Int
deriving DecidableEq, Repr

/-- Payload construction in `set_state`: luminance 0 when power is off or
brightness is explicitly 0; `max(1, round(brightness / 2.55))` when a
non-zero brightness is given; no luminance key when power is on and no
brightness was given. -/
def set_state_payload (serialNumber deviceId : String) (power : Bool)
    (brightness : Option Int) (lightType : Int) : ControlPayload :=
  { serialNumber := serialNumber
    deviceId := deviceId
    lightType := lightType
    luminance :=
      if !power || brightness == some 0 then some 0
      else
        match brightness with
        | some b => some (max 1 (pyRoundDiv255 b))
        | none => none }

/-- Body of `set_state`'s `try` block after a response arrived: returns
the truthiness of `response_json.get("flag")`; a non-dict body raises
`AttributeError` at the `.get` call. -/
def set_state_try (body : JVal) : Except PyExc Bool :=
  match body with
  | .jobj fields => .ok (pyTruthy ((lookupField fields "flag").getD .jnull))
  | _ => .error .attributeError

/-- `LightController.set_state` response handling: only
`requests.exceptions.RequestException` is caught (returning `False`);
any other exception propagates. -/
def set_state (resp : HttpResult) : Except PyExc Bool :=
  match resp with
  | .transportError => .ok false
  | .ok body => set_state_try body

/-- Power derivation in `MqttClient.on_message`:
`payload.get("state", "OFF").upper() == "ON"`; a missing field defaults
to "OFF", a non-string field makes `.upper()` raise `AttributeError`
(caught by the handler's blanket `except Exception`), and a non-dict
payload makes `.get` raise likewise. -/
def command_power (payload : JVal) : Except PyExc Bool :=
  match payload with
  | .jobj fields =>
    match (lookupField fields "state").getD (.jstr "OFF") with
    | .jstr s => .ok (pyUpper s == "ON")
    | _ => .error .attributeError
  | _ => .error .attributeError

/-- Observable actions of the command-handling path in
`MqttClient.on_message`, in program order. -/
inductive CoordinatorAct
  | setStateCall (power : Bool) (brightness : Option Int)
  | settleSleep (seconds : ℚ)
  | publishState
deriving DecidableEq, Repr

/-- Action trace of `on_message` after a command was parsed into `power`
and `brightness`: the controller call always happens; only when it
reports success does the handler `time.sleep(1.5)` and then call
`publish_state`. -/
def on_message_actions (power : Bool) (brightness : Option Int)
    (writeOk : Bool) : List CoordinatorAct :=
  if writeOk then
    [.setStateCall power brightness, .settleSleep (3 / 2), .publishState]
  else
    [.setStateCall power brightness]

/-- Messages `MqttClient.publish_state` publishes to the state topic,
given the value `get_state` returned inside the critical section: the
state when one was obtained, nothing when the poll failed. -/
def publish_state_messages (pollResult : Option LightState) : List LightState :=
  match pollResult with
  | some st => [st]
  | none => []

/-- Where a thread is in `publish_state`: outside the method, inside the
`with self.state_lock` block polling the cloud, inside it publishing a
polled state, or returned (`raised` records whether it left by a
propagating exception). -/
inductive PubPhase
  | idle
  | polling
  | publishing (st : LightState)
  | done (raised : Bool)
deriving DecidableEq, Repr

/-- Joint state of the two threads that can invoke `publish_state` (the
periodic-polling thread and the MQTT message-handling thread) and of
`self.state_lock`. -/
structure PubSys where
  lock : Option (Fin 2)
  phase : Fin 2 → PubPhase

/-- Initial state: lock free, neither thread inside `publish_state`. -/
def pubInit : PubSys :=
  { lock := none, phase := fun _ => .idle }

/-- Interleaving semantics of two concurrent `publish_state` invocations.
Entering the `with` block acquires the free lock; the poll can return a
state, return `None` (skip publish and leave), or raise; the publish can
complete or raise.  Every exit of the `with` block — normal or
exceptional — releases the lock, which is exactly Python's
`with`-statement guarantee. -/
inductive PubStep : PubSys → PubSys → Prop
  | acquire (s : PubSys) (i : Fin 2) :
      s.phase i = .idle → s.lock = none →
      PubStep s { lock := some i, phase := Function.update s.phase i .polling }
  | pollSome (s : PubSys) (i : Fin 2) (st : LightState) :
      s.phase i = .polling →
      PubStep s { lock := s.lock, phase := Function.update s.phase i (.publishing st) }
  | pollNone (s : PubSys) (i : Fin 2) :
      s.phase i = .polling →
      PubStep s { lock := none, phase := Function.update s.phase i (.done false) }
  | pollRaise (s : PubSys) (i : Fin 2) :
      s.phase i = .polling →
      PubStep s { lock := none, phase := Function.update s.phase i (.done true) }
  | publishOk (s : PubSys) (i : Fin 2) (st : LightState) :
      s.phase i = .publishing st →
      PubStep s { lock := none, phase := Function.update s.phase i (.done false) }
  | publishRaise (s : PubSys) (i : Fin 2) (st : LightState) :
      s.phase i = .publishing st →
      PubStep s { lock := none, phase := Function.update s.phase i (.done true) }

/-- States reachable from the initial state by interleaved steps of the
two threads. -/
def PubReachable (s : PubSys) : Prop :=
  Relation.ReflTransGen PubStep pubInit s

/-- A thread holds the lock exactly while it is inside the `with` block
(polling or publishing). -/
def inCritical : PubPhase → Prop
  | .polling => True
  | .publishing _ => True
  | _ => False

/-- Lock-discipline invariant of the publish-state critical section: a
thread is inside the `with` block exactly when it owns the lock. -/
def PubInv (s : PubSys) : Prop :=
  ∀ i, inCritical (s.phase i) ↔ s.lock = some i

theorem rdivHalfEven_div_le (a b : Nat) : a / b ≤ rdivHalfEven a b := by
  simp only [rdivHalfEven]
  split_ifs <;> first
    | exact Nat.le_refl _
    | exact Nat.le_succ _

theorem bitLenAux_pow_le (fuel : Nat) :
    ∀ n, 1 ≤ n → n ≤ fuel → 2 ^ bitLenAux fuel n ≤ n := by
  induction fuel with
  | zero => intro n h1 h2; omega
  | succ fuel ih =>
    intro n h1 h2
    simp only [bitLenAux]
    split_ifs with h
    · simpa using h1
    · have hn2 : 1 ≤ n / 2 := by omega
      have hf : n / 2 ≤ fuel := by omega
      have hrec := ih (n / 2) hn2 hf
      calc 2 ^ (bitLenAux fuel (n / 2) + 1)
          = 2 ^ bitLenAux fuel (n / 2) * 2 := by ring
        _ ≤ n / 2 * 2 := by omega
        _ ≤ n := by omega

theorem floorLog2_pow_le (n : Nat) (h : 1 ≤ n) : 2 ^ floorLog2 n ≤ n :=
  bitLenAux_pow_le n n h (Nat.le_refl n)

theorem fl53_ge (n : Nat) (h : 2 ^ 52 ≤ n) : 2 ^ 52 ≤ fl53 n := by
  simp only [fl53]
  split_ifs with hk
  · exact h
  · have h1 : 1 ≤ n := le_trans (by norm_num) h
    have hlog : 2 ^ floorLog2 n ≤ n := floorLog2_pow_le n h1
    have hpow : 2 ^ 52 * 2 ^ (floorLog2 n - 52) = 2 ^ floorLog2 n := by
      rw [← pow_add]
      congr 1
      omega
    have hpos : 0 < 2 ^ (floorLog2 n - 52) := Nat.pos_pow_of_pos _ (by norm_num)
    have hdiv : 2 ^ 52 ≤ n / 2 ^ (floorLog2 n - 52) := by
      rw [Nat.le_div_iff_mul_le hpos, hpow]
      exact hlog
    calc (2:Nat) ^ 52 ≤ n / 2 ^ (floorLog2 n - 52) := hdiv
      _ ≤ rdivHalfEven n (2 ^ (floorLog2 n - 52)) := rdivHalfEven_div_le _ _
      _ ≤ rdivHalfEven n (2 ^ (floorLog2 n - 52)) * 2 ^ (floorLog2 n - 52) :=
          Nat.le_mul_of_pos_right _ hpos

theorem pyRoundMul255_pos (l : Nat) (h : 1 ≤ l) : 1 ≤ pyRoundMul255 l := by
  have hn : 2 ^ 52 ≤ l * sig255 := by
    calc (2:Nat) ^ 52 ≤ sig255 := by norm_num [sig255]
      _ ≤ l * sig255 := Nat.le_mul_of_pos_left _ h
  have h53 := fl53_ge _ hn
  have hq : 2 ^ 52 / 2 ^ 51 ≤ fl53 (l * sig255) / 2 ^ 51 := Nat.div_le_div_right h53
  have h2 : (2:Nat) ^ 52 / 2 ^ 51 = 2 := by norm_num
  calc 1 ≤ fl53 (l * sig255) / 2 ^ 51 := by omega
    _ ≤ rdivHalfEven (fl53 (l * sig255)) (2 ^ 51) := rdivHalfEven_div_le _ _

set_option maxRecDepth 4000 in
theorem pyRoundMul255_range (l : Nat) (hlt : l < 101) (h1 : 1 ≤ l) :
    1 ≤ pyRoundMul255 l ∧ pyRoundMul255 l ≤ 255 := by
  revert hlt h1
  revert l
  decide

set_option maxRecDepth 8000 in
theorem pyRoundDiv255Nat_le (b : Nat) (hlt : b < 256) : pyRoundDiv255Nat b ≤ 100 := by
  revert hlt
  revert b
  decide

theorem pubInv_init : PubInv pubInit := by
  intro i
  simp [pubInit, inCritical]

theorem pubInv_release {s : PubSys} (hs : PubInv s) (i : Fin 2) (b : Bool)
    (hcrit : inCritical (s.phase i)) :
    PubInv { lock := none, phase := Function.update s.phase i (.done b) } := by
  have hlock : s.lock = some i := (hs i).mp hcrit
  intro j
  dsimp only
  by_cases hj : j = i
  · subst hj
    rw [Function.update_same]
    simp [inCritical]
  · rw [Function.update_noteq hj]
    constructor
    · intro hc
      have h2 := (hs j).mp hc
      rw [hlock] at h2
      exact absurd (Option.some.inj h2).symm hj
    · intro hnone
      exact Option.noConfusion hnone

theorem pubInv_step {s t : PubSys} (h : PubStep s t) (hs : PubInv s) : PubInv t := by
  cases h with
  | acquire i hphase hlock =>
    intro j
    dsimp only
    by_cases hj : j = i
    · subst hj
      rw [Function.update_same]
      simp [inCritical]
    · rw [Function.update_noteq hj]
      constructor
      · intro hc
        have h2 := (hs j).mp hc
        rw [hlock] at h2
        exact Option.noConfusion h2
      · intro hsome
        exact absurd (Option.some.inj hsome).symm hj
  | pollSome i st hphase =>
    have hlock : s.lock = some i := (hs i).mp (by rw [hphase]; trivial)
    intro j
    dsimp only
    by_cases hj : j = i
    · subst hj
      rw [Function.update_same]
      simp [inCritical, hlock]
    · rw [Function.update_noteq hj]
      exact hs j
  | pollNone i hphase =>
    exact pubInv_release hs i false (by rw [hphase]; trivial)
  | pollRaise i hphase =>
    exact pubInv_release hs i true (by rw [hphase]; trivial)
  | publishOk i st hphase =>
    exact pubInv_release hs i false (by rw [hphase]; trivial)
  | publishRaise i st hphase =>
    exact pubInv_release hs i true (by rw [hphase]; trivial)

theorem pubInv_reachable {s : PubSys} (h : PubReachable s) : PubInv s := by
  induction h with
  | refl => exact pubInv_init
  | tail _ hstep ih => exact pubInv_step hstep ih

theorem luminanceToState_pos {l : Int} (h : 0 < l) :
    luminanceToState l = { state := "ON", brightness := (pyRoundMul255 l.toNat : Int) } := by
  simp [luminanceToState, h]

theorem luminanceToState_nonpos {l : Int} (h : ¬0 < l) :
    luminanceToState l = { state := "OFF", brightness := 0 } := by
  simp [luminanceToState, h]

/-- C1: at most one Publish State operation executes at a time — in
every reachable interleaving of the periodic-polling thread and the
command-handling thread, the two are never simultaneously inside the
`with self.state_lock` block of `publish_state` — and the lock is
released on every exit path of the operation (normal completion, a poll
that returned `None`, and exceptions raised by the poll or the publish),
so a thread whose invocation has returned never holds the lock. -/
theorem publish_state_mutual_exclusion (s : PubSys) (hs : PubReachable s) :
    (¬(inCritical (s.phase 0) ∧ inCritical (s.phase 1)))
    ∧ (∀ (i : Fin 2) (b : Bool), s.phase i = .done b → s.lock ≠ some i) := by
  have hinv := pubInv_reachable hs
  constructor
  · rintro ⟨h0, h1⟩
    have e0 := (hinv 0).mp h0
    have e1 := (hinv 1).mp h1
    rw [e0] at e1
    exact absurd (Option.some.inj e1) (by decide)
  · intro i b hdone hlock
    have hc := (hinv i).mpr hlock
    rw [hdone] at hc
    exact hc

/-- Witness for C1, discharging reachability at the initial state. -/
theorem publish_state_mutual_exclusion_witness :
    ¬(inCritical (pubInit.phase 0) ∧ inCritical (pubInit.phase 1)) :=
  (publish_state_mutual_exclusion pubInit Relation.ReflTransGen.refl).1

/-- C2: for every luminance in [1,100], the forward conversion used by
`get_state` yields a brightness strictly greater than 0 and at most 255;
luminance 0 yields brightness 0 and state "OFF". -/
theorem get_state_scale_range :
    (∀ l : Nat, l < 101 → 1 ≤ l →
      0 < (luminanceToState (l : Int)).brightness
      ∧ (luminanceToState (l : Int)).brightness ≤ 255)
    ∧ luminanceToState 0 = { state := "OFF", brightness := 0 } := by
  constructor
  · intro l hlt h1
    have hpos : (0 : Int) < (l : Int) := by exact_mod_cast h1
    have hb : (luminanceToState (l : Int)).brightness = (pyRoundMul255 l : Int) := by
      rw [luminanceToState_pos hpos]
      simp
    have hr := pyRoundMul255_range l hlt h1
    rw [hb]
    exact ⟨by exact_mod_cast hr.1, by exact_mod_cast hr.2⟩
  · rfl

/-- Witness for C2 at luminance 50. -/
theorem get_state_scale_range_witness :
    0 < (luminanceToState ((50 : Nat) : Int)).brightness
    ∧ (luminanceToState ((50 : Nat) : Int)).brightness ≤ 255 :=
  get_state_scale_range.1 50 (by decide) (by decide)

set_option maxRecDepth 8000 in
/-- C3: for every brightness in [1,255], the reverse conversion
`max(1, round(b / 2.55))` used by `set_state` lands in [1,100], so a
power-on command with a nonzero brightness always places a cloud
luminance in [1,100] in the payload (0 is reserved for OFF commands). -/
theorem set_state_scale_range (b : Int) (h1 : 1 ≤ b) (h2 : b ≤ 255)
    (serialNumber deviceId : String) (lightType : Int) :
    ∃ v, (set_state_payload serialNumber deviceId true (some b) lightType).luminance = some v
      ∧ 1 ≤ v ∧ v ≤ 100 := by
  refine ⟨max 1 (pyRoundDiv255 b), ?_, le_max_left _ _, ?_⟩
  · simp [set_state_payload, show b ≠ 0 by omega]
  · have h0 : 0 ≤ b := by omega
    have heq : pyRoundDiv255 b = (pyRoundDiv255Nat b.toNat : Int) := by
      simp [pyRoundDiv255, h0]
    have hle : pyRoundDiv255Nat b.toNat ≤ 100 := pyRoundDiv255Nat_le _ (by omega)
    refine max_le (by norm_num) ?_
    rw [heq]
    exact_mod_cast hle

set_option maxRecDepth 8000 in
/-- Witness for C3 at brightness 128. -/
theorem set_state_scale_range_witness :
    ∃ v, (set_state_payload "sn" "dev" true (some 128) 3).luminance = some v
      ∧ 1 ≤ v ∧ v ≤ 100 :=
  set_state_scale_range 128 (by decide) (by decide) "sn" "dev" 3

set_option maxRecDepth 8000 in
/-- C4: round trip of the command brightness 128: `set_state` places
luminance `max(1, round(128 / 2.55)) = 50` in the payload, and polling a
cloud luminance of 50 through `get_state`'s conversion publishes state
"ON" with a brightness within rounding tolerance of the original, i.e.
in {127, 128} (the binary64 computation gives 127). -/
theorem round_trip_brightness_128 :
    (set_state_payload "sn" "dev" true (some 128) 3).luminance = some 50
    ∧ (luminanceToState 50).state = "ON"
    ∧ ((luminanceToState 50).brightness = 127 ∨ (luminanceToState 50).brightness = 128) := by
  refine ⟨?_, ?_, Or.inl ?_⟩ <;> decide

/-- C5: the three-case payload policy of `set_state`, in order: power
off or an explicit brightness 0 put luminance 0 in the payload; a
provided positive brightness puts `max(1, round(brightness / 2.55))`;
power on with no brightness omits the luminance key entirely. -/
theorem set_state_payload_policy :
    (∀ (sn dv : String) (lt : Int) (power : Bool) (brightness : Option Int),
      power = false ∨ brightness = some 0 →
      (set_state_payload sn dv power brightness lt).luminance = some 0)
    ∧ (∀ (sn dv : String) (lt b : Int), 0 < b →
      (set_state_payload sn dv true (some b) lt).luminance = some (max 1 (pyRoundDiv255 b)))
    ∧ (∀ (sn dv : String) (lt : Int),
      (set_state_payload sn dv true none lt).luminance = none) := by
  refine ⟨?_, ?_, ?_⟩
  · rintro sn dv lt power brightness (rfl | rfl)
    · simp [set_state_payload]
    · simp [set_state_payload]
  · intro sn dv lt b hb
    simp [set_state_payload, show b ≠ 0 by omega]
  · intro sn dv lt
    rfl

set_option maxRecDepth 8000 in
/-- Witness for C5, one instance per case of the policy. -/
theorem set_state_payload_policy_witness :
    (set_state_payload "sn" "dev" false none 3).luminance = some 0
    ∧ (set_state_payload "sn" "dev" true (some 128) 3).luminance
        = some (max 1 (pyRoundDiv255 128))
    ∧ (set_state_payload "sn" "dev" true none 3).luminance = none :=
  ⟨set_state_payload_policy.1 "sn" "dev" 3 false none (Or.inl rfl),
   set_state_payload_policy.2.1 "sn" "dev" 3 128 (by decide),
   set_state_payload_policy.2.2 "sn" "dev" 3⟩

/-- C6 counterexample: the coordinator upper-cases the state field
(`payload.get("state", "OFF").upper() == "ON"`), so the payload
`{"state": "on"}` derives power `true`, refuting the claim that any
state string other than exactly "ON" yields power `false`. -/
theorem command_power_counterexample :
    command_power (.jobj [("state", .jstr "on")]) = .ok true ∧ "on" ≠ "ON" := by
  exact ⟨rfl, by decide⟩

/-- C6 amended: for every parseable command payload whose state field is
a string, power is derived case-insensitively as
`power = (state.upper() == "ON")`, and a missing state field defaults to
"OFF", hence power `false`. -/
theorem command_power_amended :
    (∀ (fields : List (String × JVal)) (s : String),
      lookupField fields "state" = some (.jstr s) →
      command_power (.jobj fields) = .ok (pyUpper s == "ON"))
    ∧ (∀ fields : List (String × JVal),
      lookupField fields "state" = none →
      command_power (.jobj fields) = .ok false) := by
  constructor
  · intro fields s h
    simp [command_power, h]
  · intro fields h
    simp only [command_power, h]
    rfl

/-- Witness for C6 (amended) on a lowercase off command. -/
theorem command_power_amended_witness :
    command_power (.jobj [("state", .jstr "ofF")]) = .ok (pyUpper "ofF" == "ON") :=
  command_power_amended.1 [("state", .jstr "ofF")] "ofF" rfl

/-- C7: `get_state` returns `None` — not a crash — whenever the
response's success flag is falsy or the data payload is absent (and on
transport errors), and when the poll fails `publish_state` publishes
nothing to the state topic, leaving the previously retained broker
message visible. -/
theorem failed_poll_skips_publish :
    (∀ fields : List (String × JVal),
      ¬(pyTruthy ((lookupField fields "flag").getD .jnull) = true
        ∧ hasField fields "data" = true) →
      get_state (.ok (.jobj fields)) = .ok none)
    ∧ get_state .transportError = .ok none
    ∧ (∀ pollResult : Option LightState,
      pollResult = none → publish_state_messages pollResult = []) := by
  refine ⟨?_, rfl, ?_⟩
  · intro fields h
    simp only [get_state, get_state_try]
    rw [if_neg h]
  · rintro _ rfl
    rfl

/-- Witness for C7 on an empty response object (flag absent, falsy). -/
theorem failed_poll_skips_publish_witness :
    get_state (.ok (.jobj [])) = .ok none ∧ publish_state_messages none = [] :=
  ⟨failed_poll_skips_publish.1 [] (by decide), failed_poll_skips_publish.2.2 none rfl⟩

theorem pyInt_error_kinds (v : JVal) (e : PyExc) (h : pyInt v = .error e) :
    e = .valueError ∨ e = .typeError := by
  match v with
  | .jint n => simp [pyInt] at h
  | .jbool b => simp [pyInt] at h
  | .jstr s =>
    simp only [pyInt] at h
    split at h
    · simp at h
    · cases h
      exact Or.inl rfl
  | .jnull =>
    cases h
    exact Or.inr rfl
  | .jarr elems =>
    cases h
    exact Or.inr rfl
  | .jobj fields =>
    cases h
    exact Or.inr rfl

theorem get_state_try_error_kinds (body : JVal) (e : PyExc)
    (h : get_state_try body = .error e) :
    e = .valueError ∨ e = .typeError ∨ e = .attributeError := by
  match body with
  | .jnull => cases h; exact Or.inr (Or.inr rfl)
  | .jbool b => cases h; exact Or.inr (Or.inr rfl)
  | .jint n => cases h; exact Or.inr (Or.inr rfl)
  | .jstr s => cases h; exact Or.inr (Or.inr rfl)
  | .jarr elems => cases h; exact Or.inr (Or.inr rfl)
  | .jobj fields =>
    simp only [get_state_try] at h
    split at h
    · cases hdval : (lookupField fields "data").getD JVal.jnull with
      | jobj dataFields =>
        rw [hdval] at h
        dsimp only at h
        rcases hp : pyInt ((lookupField dataFields "luminance").getD (.jint 0)) with e2 | n
        · rw [hp] at h
          cases h
          rcases pyInt_error_kinds _ _ hp with h1 | h1
          · exact Or.inl h1
          · exact Or.inr (Or.inl h1)
        · rw [hp] at h
          simp at h
      | jnull => rw [hdval] at h; cases h; exact Or.inr (Or.inr rfl)
      | jbool b2 => rw [hdval] at h; cases h; exact Or.inr (Or.inr rfl)
      | jint n2 => rw [hdval] at h; cases h; exact Or.inr (Or.inr rfl)
      | jstr s2 => rw [hdval] at h; cases h; exact Or.inr (Or.inr rfl)
      | jarr el2 => rw [hdval] at h; cases h; exact Or.inr (Or.inr rfl)
    · simp at h

/-- C8 counterexample: a success-flagged response whose `data` value is
null makes `get_state` raise `AttributeError` at `device_data.get`,
which none of its `except` clauses catches — contrary to the claim, an
exception can propagate out of the Device Adapter. -/
theorem get_state_raises_on_null_data :
    get_state (.ok (.jobj [("flag", .jbool true), ("data", .jnull)]))
      = .error .attributeError := by
  rfl

/-- C8 amended: transport failures (`RequestException`, covering
network/timeout/non-2xx and undecodable bodies) and `ValueError` /
`KeyError` parse failures are caught at the adapter boundary and
converted to failure values; the only exceptions that can escape
`get_state` are `TypeError` / `AttributeError` (from a non-dict response
body, a null or non-dict data value, or a null/array/object luminance
value), and the only one that can escape `set_state` is
`AttributeError` (from a non-dict response body). -/
theorem adapter_failure_propagation :
    get_state .transportError = .ok none
    ∧ set_state .transportError = .ok false
    ∧ (∀ (resp : HttpResult) (e : PyExc), get_state resp = .error e →
        e = .typeError ∨ e = .attributeError)
    ∧ (∀ (resp : HttpResult) (e : PyExc), set_state resp = .error e →
        e = .attributeError) := by
  refine ⟨rfl, rfl, ?_, ?_⟩
  · intro resp e h
    match resp with
    | .transportError => cases h
    | .ok body =>
      simp only [get_state] at h
      rcases hg : get_state_try body with e2 | v
      · rw [hg] at h
        have hk := get_state_try_error_kinds body e2 hg
        cases e2 with
        | requestException => simp at hk
        | valueError => simp at h
        | keyError => simp at h
        | typeError => cases h; exact Or.inl rfl
        | attributeError => cases h; exact Or.inr rfl
      · rw [hg] at h
        simp at h
  · intro resp e h
    match resp with
    | .transportError => cases h
    | .ok (.jobj fields) => simp [set_state, set_state_try] at h
    | .ok .jnull => cases h; rfl
    | .ok (.jbool _) => cases h; rfl
    | .ok (.jint _) => cases h; rfl
    | .ok (.jstr _) => cases h; rfl
    | .ok (.jarr _) => cases h; rfl

/-- Witness for C8 (amended), exhibiting the escaping `AttributeError`
on the null-data response. -/
theorem adapter_failure_propagation_witness :
    PyExc.attributeError = PyExc.typeError ∨ PyExc.attributeError = PyExc.attributeError :=
  adapter_failure_propagation.2.2.1
    (.ok (.jobj [("flag", .jbool true), ("data", .jnull)])) .attributeError rfl

/-- C9: after a parsed command, a failed cloud write makes the handler
log and stop — its action trace contains no state publish — while a
successful write sleeps the fixed 1.5-second settle delay and only then
performs the state poll-and-publish. -/
theorem on_message_write_outcome :
    (∀ (power : Bool) (brightness : Option Int),
      on_message_actions power brightness false = [.setStateCall power brightness]
      ∧ CoordinatorAct.publishState ∉ on_message_actions power brightness false)
    ∧ (∀ (power : Bool) (brightness : Option Int),
      on_message_actions power brightness true =
        [.setStateCall power brightness, .settleSleep (3 / 2), .publishState]) := by
  constructor
  · intro p b
    refine ⟨rfl, ?_⟩
    simp [on_message_actions]
  · intro p b
    rfl

/-- C10: whatever integer luminance the cloud reports — negative values
included — any state `get_state` builds is internally consistent: the
state string is "ON" exactly when the brightness is positive, and "OFF"
always comes with brightness exactly 0. -/
theorem polled_state_consistent (l : Int) :
    ((luminanceToState l).state = "ON" ↔ 0 < (luminanceToState l).brightness)
    ∧ ((luminanceToState l).state = "OFF" → (luminanceToState l).brightness = 0) := by
  by_cases h : 0 < l
  · rw [luminanceToState_pos h]
    have h1 : 1 ≤ l.toNat := by omega
    have hbi : (0 : Int) < (pyRoundMul255 l.toNat : Int) := by
      exact_mod_cast pyRoundMul255_pos l.toNat h1
    constructor
    · constructor
      · intro _
        exact hbi
      · intro _
        rfl
    · intro hoff
      have hon : ("ON" : String) = "OFF" := hoff
      exact absurd hon (by decide)
  · rw [luminanceToState_nonpos h]
    constructor
    · constructor
      · intro hon
        have hon2 : ("OFF" : String) = "ON" := hon
        exact absurd hon2 (by decide)
      · intro hpos
        have hpos2 : (0 : Int) < 0 := hpos
        exact absurd hpos2 (by decide)
    · intro _
      rfl
